import Mathlib

/-!
# Verification of the odometry core of `2020-2021-bionic-beaver`

Shallow embedding of `src/subsystems/control/odometry.cpp`: the deadband
filter `m_filter_values`, the body of the perpetual update task
`m_update_func` (one iteration is modelled as the pure state transition
`tick`), the calibration routine `calibrate`, the starting-position switch
of the `c_Odometry` constructor, and the `start_odom` / `stop_odom`
lifecycle.  `double` values are modelled as real numbers.
-/

namespace BionicBeaver

noncomputable section

/-- `c_Robot_Starting_Pos_Side`: which side of the field the robot starts on. -/
inductive c_Robot_Starting_Pos_Side
  | RED
  | BLUE
  | SKILLS

/-- One starting coordinate triple (`x`, `y` in inches, `head` in degrees). -/
structure Coord where
  x : ℝ
  y : ℝ
  head : ℝ

/-- `c_Robot_Starting_Positions`: the starting-position table handed to the
`c_Odometry` constructor, one `Coord` per side variant. -/
structure c_Robot_Starting_Positions where
  m_live_start_red : Coord
  m_live_start_blue : Coord
  m_skills : Coord

/-- Tracking-geometry constants read from the sensors object:
`tracking_wheels_get_diameter()`, `tracking_wheels_get_side_radius()` and
`tracking_wheels_get_middle_radius()`. -/
structure Geometry where
  wheel_diameter : ℝ
  side_radius : ℝ
  middle_radius : ℝ

/-- One raw sensor sample for a tick: `imu_get_rotation()`, `imu_get_pitch()`,
`imu_get_roll()` (degrees) and the two cumulative tracking-wheel encoder
readings `tracking_wheels_get(RIGHT/MIDDLE)` (degrees of wheel rotation). -/
structure Reading where
  rotation : ℝ
  pitch : ℝ
  roll : ℝ
  ticks_right : ℝ
  ticks_middle : ℝ

/-- The mutable state of the odometry subsystem: the member fields of
`c_Odometry` written by `m_update_func` and `calibrate` (`m_global_x`,
`m_global_y`, `m_global_angle`, `m_offset_x`, `m_offset_y`,
`m_offset_angle`), the accumulator locals of `m_update_func`
(`m_filtered_rotation`, `m_last_rotation`, ..., `m_last_right`,
`m_last_middle`), and whether the update task currently exists
(`m_update_task != nullptr`). -/
structure OdomState where
  global_x : ℝ
  global_y : ℝ
  global_angle : ℝ
  offset_x : ℝ
  offset_y : ℝ
  offset_angle : ℝ
  filtered_rotation : ℝ
  last_rotation : ℝ
  filtered_pitch : ℝ
  last_pitch : ℝ
  filtered_roll : ℝ
  last_roll : ℝ
  last_right : ℝ
  last_middle : ℝ
  task_running : Bool

/-- The switch in the `c_Odometry` constructor selecting `m_starting_x`,
`m_starting_y`, `m_starting_angle` from the starting-position table
according to `m_starting_side`. -/
def startingCoord (starting_coords : c_Robot_Starting_Positions) :
    c_Robot_Starting_Pos_Side → Coord
  | .RED => starting_coords.m_live_start_red
  | .BLUE => starting_coords.m_live_start_blue
  | .SKILLS => starting_coords.m_skills

/-- `c_Odometry::m_filter_values`: `filter = current_val - last_val`; if
`fabs(filter) < 0.01` the result is forced to `0.0`, otherwise it is the
raw difference. -/
def m_filter_values (current_val last_val : ℝ) : ℝ :=
  let filter := current_val - last_val
  if |filter| < 0.01 then 0 else filter

/-- Modelled from the spec: `u_deg_to_rad` comes from a utilities header that
is not among the sources; the spec describes it as the degrees-to-radians
conversion applied to the filtered rotation total, i.e. scaling by π / 180. -/
def u_deg_to_rad (deg : ℝ) : ℝ := deg * (Real.pi / 180)

/-- The filtered rotation total after the current tick:
`m_filtered_rotation += m_filter_values(m_current_rotation, m_last_rotation)`. -/
def filteredRotationAfter (s : OdomState) (r : Reading) : ℝ :=
  s.filtered_rotation + m_filter_values r.rotation s.last_rotation

/-- `m_len_right = tracking_wheels_get(RIGHT) / 360.0 * (diameter * M_PI)`. -/
def lenRight (geo : Geometry) (r : Reading) : ℝ :=
  r.ticks_right / 360 * (geo.wheel_diameter * Real.pi)

/-- `m_len_middle = tracking_wheels_get(MIDDLE) / 360.0 * (diameter * M_PI)`. -/
def lenMiddle (geo : Geometry) (r : Reading) : ℝ :=
  r.ticks_middle / 360 * (geo.wheel_diameter * Real.pi)

/-- `m_delta_right = m_len_right - m_last_right`. -/
def deltaRight (geo : Geometry) (s : OdomState) (r : Reading) : ℝ :=
  lenRight geo r - s.last_right

/-- `m_delta_middle = m_len_middle - m_last_middle`. -/
def deltaMiddle (geo : Geometry) (s : OdomState) (r : Reading) : ℝ :=
  lenMiddle geo r - s.last_middle

/-- `m_delta_theta = u_deg_to_rad(m_filtered_rotation) - m_global_angle`,
computed after the filtered rotation total has absorbed this tick's delta. -/
def deltaTheta (s : OdomState) (r : Reading) : ℝ :=
  u_deg_to_rad (filteredRotationAfter s r) - s.global_angle

/-- `m_alpha`: `m_delta_theta / 2.0` in the arc branch (`if (m_delta_theta)`),
`0.0` in the straight-line branch. -/
def alpha (s : OdomState) (r : Reading) : ℝ :=
  if deltaTheta s r = 0 then 0 else deltaTheta s r / 2

/-- `m_radius_right = m_delta_right / m_delta_theta +
tracking_wheels_get_side_radius()` (only used in the arc branch). -/
def radiusRight (geo : Geometry) (s : OdomState) (r : Reading) : ℝ :=
  deltaRight geo s r / deltaTheta s r + geo.side_radius

/-- `m_radius_middle = m_delta_middle / m_delta_theta +
tracking_wheels_get_middle_radius()` (only used in the arc branch). -/
def radiusMiddle (geo : Geometry) (s : OdomState) (r : Reading) : ℝ :=
  deltaMiddle geo s r / deltaTheta s r + geo.middle_radius

/-- `m_chord_right`: `(m_radius_right * sin(m_alpha)) * 2` in the arc branch,
`m_delta_right` in the straight-line branch. -/
def chordRight (geo : Geometry) (s : OdomState) (r : Reading) : ℝ :=
  if deltaTheta s r = 0 then deltaRight geo s r
  else radiusRight geo s r * Real.sin (alpha s r) * 2

/-- `m_chord_middle`: `(m_radius_middle * sin(m_alpha)) * 2` in the arc
branch, `m_delta_middle` in the straight-line branch. -/
def chordMiddle (geo : Geometry) (s : OdomState) (r : Reading) : ℝ :=
  if deltaTheta s r = 0 then deltaMiddle geo s r
  else radiusMiddle geo s r * Real.sin (alpha s r) * 2

/-- `m_polar_offset = m_global_angle + m_alpha`. -/
def polarOffset (s : OdomState) (r : Reading) : ℝ :=
  s.global_angle + alpha s r

/-- One iteration of the `while(true)` loop of `c_Odometry::m_update_func`:
filter and accumulate the three IMU channels, update their `last` values,
compute the wheel travel deltas and update `m_last_right` / `m_last_middle`,
run the arc integrator, add the projected chords to `m_global_x` /
`m_global_y`, and add `m_delta_theta` to `m_global_angle`. -/
def tick (geo : Geometry) (s : OdomState) (r : Reading) : OdomState :=
  { s with
    filtered_rotation := filteredRotationAfter s r
    last_rotation := r.rotation
    filtered_pitch := s.filtered_pitch + m_filter_values r.pitch s.last_pitch
    last_pitch := r.pitch
    filtered_roll := s.filtered_roll + m_filter_values r.roll s.last_roll
    last_roll := r.roll
    last_right := lenRight geo r
    last_middle := lenMiddle geo r
    global_x := s.global_x + chordRight geo s r * Real.sin (polarOffset s r)
      + chordMiddle geo s r * Real.cos (polarOffset s r)
    global_y := s.global_y + chordRight geo s r * Real.cos (polarOffset s r)
      + chordMiddle geo s r * (-Real.sin (polarOffset s r))
    global_angle := s.global_angle + deltaTheta s r }

/-- `c_Odometry::calibrate`: zero the three calibration offsets, then set the
live pose to the stored starting triple plus the (now zero) offsets. -/
def calibrate (starting : Coord) (s : OdomState) : OdomState :=
  { s with
    offset_x := 0
    offset_y := 0
    offset_angle := 0
    global_x := starting.x + 0
    global_y := starting.y + 0
    global_angle := starting.head + 0 }

/-- `c_Odometry::start_odom`: spawn a fresh task running `m_update_func`; the
task's local accumulators are freshly value-initialised to `0.0`; no member
field of `c_Odometry` is touched. -/
def start_odom (s : OdomState) : OdomState :=
  { s with
    task_running := true
    filtered_rotation := 0
    last_rotation := 0
    filtered_pitch := 0
    last_pitch := 0
    filtered_roll := 0
    last_roll := 0
    last_right := 0
    last_middle := 0 }

/-- `c_Odometry::stop_odom`: remove and delete the update task if it exists;
no member field other than the task handle is touched. -/
def stop_odom (s : OdomState) : OdomState :=
  { s with task_running := false }

/-- The all-zero odometry state, used as a concrete evaluation point. -/
def sZero : OdomState :=
  ⟨0, 0, 0, 0, 0, 0, 0, 0, 0, 0, 0, 0, 0, 0, false⟩

/-- The all-zero sensor sample, used as a concrete evaluation point. -/
def rZero : Reading := ⟨0, 0, 0, 0, 0⟩

/-- A degenerate geometry (all constants zero), used as a concrete
evaluation point. -/
def geoZero : Geometry := ⟨0, 0, 0⟩

/-- A geometry whose right tracking wheel sits one inch from the turning
center, used as a concrete evaluation point. -/
def geoSide : Geometry := ⟨0, 1, 0⟩

theorem m_filter_values_self (x : ℝ) : m_filter_values x x = 0 := by
  simp [m_filter_values]

theorem u_deg_to_rad_zero : u_deg_to_rad 0 = 0 := by
  simp [u_deg_to_rad]

theorem deltaTheta_rZero_of_zero_locals (s : OdomState)
    (h1 : s.last_rotation = 0) (h2 : s.filtered_rotation = 0) :
    deltaTheta s rZero = -s.global_angle := by
  simp [deltaTheta, filteredRotationAfter, rZero, h1, h2,
    m_filter_values_self, u_deg_to_rad_zero]

/-- Claim C2: from any state reached by any sequence of update ticks, for any
active side selector, `calibrate()` zeroes all three calibration offsets and
sets the live pose exactly to the `StartingPoseConfig` triple of the active
side, regardless of the previously accumulated pose. -/
theorem calibrate_resets_pose
    (tbl : c_Robot_Starting_Positions) (side : c_Robot_Starting_Pos_Side)
    (geo : Geometry) (s0 : OdomState) (rs : List Reading) :
    (calibrate (startingCoord tbl side) (rs.foldl (tick geo) s0)).offset_x = 0 ∧
    (calibrate (startingCoord tbl side) (rs.foldl (tick geo) s0)).offset_y = 0 ∧
    (calibrate (startingCoord tbl side) (rs.foldl (tick geo) s0)).offset_angle = 0 ∧
    (calibrate (startingCoord tbl side) (rs.foldl (tick geo) s0)).global_x
      = (startingCoord tbl side).x ∧
    (calibrate (startingCoord tbl side) (rs.foldl (tick geo) s0)).global_y
      = (startingCoord tbl side).y ∧
    (calibrate (startingCoord tbl side) (rs.foldl (tick geo) s0)).global_angle
      = (startingCoord tbl side).head := by
  simp [calibrate]

/-- Claim C3: for any pair of raw readings on an angular channel the deadband
filter yields exactly zero when the difference is below 0.01 degrees in
magnitude and the raw difference otherwise; each tick adds the yielded value
to the channel's running filtered total, and overwrites the stored last
reading with the current one unconditionally. -/
theorem deadband_filter_contract (geo : Geometry) (s : OdomState) (r : Reading)
    (current last : ℝ) :
    (|current - last| < 0.01 → m_filter_values current last = 0) ∧
    (0.01 ≤ |current - last| → m_filter_values current last = current - last) ∧
    (tick geo s r).filtered_rotation
      = s.filtered_rotation + m_filter_values r.rotation s.last_rotation ∧
    (tick geo s r).last_rotation = r.rotation ∧
    (tick geo s r).filtered_pitch
      = s.filtered_pitch + m_filter_values r.pitch s.last_pitch ∧
    (tick geo s r).last_pitch = r.pitch ∧
    (tick geo s r).filtered_roll
      = s.filtered_roll + m_filter_values r.roll s.last_roll ∧
    (tick geo s r).last_roll = r.roll := by
  refine ⟨?_, ?_, rfl, rfl, rfl, rfl, rfl, rfl⟩
  · intro h
    simp [m_filter_values, h]
  · intro h
    have h' : ¬ |current - last| < 0.01 := not_lt.mpr h
    simp [m_filter_values, h']

/-- Witness for C3 at concrete inputs: a 0.005-degree delta is suppressed to
zero, a 2-degree delta passes through unchanged, and the tick overwrites the
stored last rotation with the current reading. -/
theorem deadband_filter_contract_witness :
    |(0.005 : ℝ) - 0| < 0.01 ∧ m_filter_values 0.005 0 = 0 ∧
    (0.01 : ℝ) ≤ |(2 : ℝ) - 0| ∧ m_filter_values 2 0 = 2 - 0 ∧
    (tick geoZero sZero rZero).last_rotation = rZero.rotation := by
  have h1 : |(0.005 : ℝ) - 0| < 0.01 := by
    rw [abs_lt]
    constructor <;> norm_num
  have h2 : (0.01 : ℝ) ≤ |(2 : ℝ) - 0| := by
    rw [le_abs]
    left
    norm_num
  exact ⟨h1, (deadband_filter_contract geoZero sZero rZero 0.005 0).1 h1,
    h2, (deadband_filter_contract geoZero sZero rZero 2 0).2.1 h2,
    (deadband_filter_contract geoZero sZero rZero 2 0).2.2.2.1⟩

/-- Claim C4: in every tick whose heading delta is exactly zero, each wheel's
chord equals that wheel's raw travel delta, with no trigonometric
correction. -/
theorem straight_branch_chords (geo : Geometry) (s : OdomState) (r : Reading)
    (h : deltaTheta s r = 0) :
    chordRight geo s r = deltaRight geo s r ∧
    chordMiddle geo s r = deltaMiddle geo s r := by
  simp [chordRight, chordMiddle, h]

/-- Witness for C4 at the all-zero input, where the heading delta is zero. -/
theorem straight_branch_chords_witness :
    deltaTheta sZero rZero = 0 ∧
    chordRight geoZero sZero rZero = deltaRight geoZero sZero rZero ∧
    chordMiddle geoZero sZero rZero = deltaMiddle geoZero sZero rZero := by
  have h : deltaTheta sZero rZero = 0 := by
    rw [deltaTheta_rZero_of_zero_locals sZero rfl rfl]
    simp [sZero]
  exact ⟨h, (straight_branch_chords geoZero sZero rZero h).1,
    (straight_branch_chords geoZero sZero rZero h).2⟩

/-- A state whose stored last right-wheel travel is -1 inch, so that an
all-zero reading produces a right-wheel delta of exactly +1 inch. -/
def sRight : OdomState :=
  ⟨0, 0, 0, 0, 0, 0, 0, 0, 0, 0, 0, 0, -1, 0, false⟩

/-- A state whose stored last middle-wheel travel is -1 inch, so that an
all-zero reading produces a middle-wheel delta of exactly +1 inch. -/
def sMid : OdomState :=
  ⟨0, 0, 0, 0, 0, 0, 0, 0, 0, 0, 0, 0, 0, -1, false⟩

/-- Claim C5: on a tick starting at heading 0 with zero heading delta, a
right-wheel-only travel delta of +1 inch adds exactly 1 to `y` and leaves `x`
unchanged, and a middle-wheel-only travel delta of +1 inch adds exactly 1 to
`x` and leaves `y` unchanged. -/
theorem coordinate_convention (geo : Geometry) (s : OdomState) (r : Reading)
    (hh : s.global_angle = 0) (hθ : deltaTheta s r = 0) :
    (deltaRight geo s r = 1 → deltaMiddle geo s r = 0 →
      (tick geo s r).global_y = s.global_y + 1 ∧
      (tick geo s r).global_x = s.global_x) ∧
    (deltaRight geo s r = 0 → deltaMiddle geo s r = 1 →
      (tick geo s r).global_x = s.global_x + 1 ∧
      (tick geo s r).global_y = s.global_y) := by
  constructor
  · intro hr hm
    constructor <;>
      simp [tick, chordRight, chordMiddle, polarOffset, alpha, hθ, hh, hr, hm]
  · intro hr hm
    constructor <;>
      simp [tick, chordRight, chordMiddle, polarOffset, alpha, hθ, hh, hr, hm]

/-- Witness for C5: from `sRight` (resp. `sMid`) with an all-zero reading, the
right (resp. middle) wheel delta is +1 inch and the pose moves by exactly one
inch along `y` (resp. `x`). -/
theorem coordinate_convention_witness :
    sRight.global_angle = 0 ∧ deltaTheta sRight rZero = 0 ∧
    deltaRight geoZero sRight rZero = 1 ∧ deltaMiddle geoZero sRight rZero = 0 ∧
    (tick geoZero sRight rZero).global_y = sRight.global_y + 1 ∧
    (tick geoZero sRight rZero).global_x = sRight.global_x ∧
    sMid.global_angle = 0 ∧ deltaTheta sMid rZero = 0 ∧
    deltaRight geoZero sMid rZero = 0 ∧ deltaMiddle geoZero sMid rZero = 1 ∧
    (tick geoZero sMid rZero).global_x = sMid.global_x + 1 ∧
    (tick geoZero sMid rZero).global_y = sMid.global_y := by
  have hhR : sRight.global_angle = 0 := rfl
  have hθR : deltaTheta sRight rZero = 0 := by
    rw [deltaTheta_rZero_of_zero_locals sRight rfl rfl]
    simp [sRight]
  have hrR : deltaRight geoZero sRight rZero = 1 := by
    simp [deltaRight, lenRight, sRight, rZero, geoZero]
  have hmR : deltaMiddle geoZero sRight rZero = 0 := by
    simp [deltaMiddle, lenMiddle, sRight, rZero, geoZero]
  have hhM : sMid.global_angle = 0 := rfl
  have hθM : deltaTheta sMid rZero = 0 := by
    rw [deltaTheta_rZero_of_zero_locals sMid rfl rfl]
    simp [sMid]
  have hrM : deltaRight geoZero sMid rZero = 0 := by
    simp [deltaRight, lenRight, sMid, rZero, geoZero]
  have hmM : deltaMiddle geoZero sMid rZero = 1 := by
    simp [deltaMiddle, lenMiddle, sMid, rZero, geoZero]
  obtain ⟨hy, hx⟩ :=
    (coordinate_convention geoZero sRight rZero hhR hθR).1 hrR hmR
  obtain ⟨hx2, hy2⟩ :=
    (coordinate_convention geoZero sMid rZero hhM hθM).2 hrM hmM
  exact ⟨hhR, hθR, hrR, hmR, hy, hx, hhM, hθM, hrM, hmM, hx2, hy2⟩

/-- Claim C8: a `stop_odom()` followed by `start_odom()` leaves the committed
pose fields untouched (no implicit reset), and the first tick after the
restart continues from exactly that pose: its new coordinates and heading are
the preserved ones plus that tick's increments. -/
theorem stop_start_preserves_pose (geo : Geometry) (s : OdomState)
    (r : Reading) :
    (start_odom (stop_odom s)).global_x = s.global_x ∧
    (start_odom (stop_odom s)).global_y = s.global_y ∧
    (start_odom (stop_odom s)).global_angle = s.global_angle ∧
    (tick geo (start_odom (stop_odom s)) r).global_x
      = s.global_x
        + chordRight geo (start_odom (stop_odom s)) r
          * Real.sin (polarOffset (start_odom (stop_odom s)) r)
        + chordMiddle geo (start_odom (stop_odom s)) r
          * Real.cos (polarOffset (start_odom (stop_odom s)) r) ∧
    (tick geo (start_odom (stop_odom s)) r).global_y
      = s.global_y
        + chordRight geo (start_odom (stop_odom s)) r
          * Real.cos (polarOffset (start_odom (stop_odom s)) r)
        + chordMiddle geo (start_odom (stop_odom s)) r
          * (-Real.sin (polarOffset (start_odom (stop_odom s)) r)) ∧
    (tick geo (start_odom (stop_odom s)) r).global_angle
      = s.global_angle + deltaTheta (start_odom (stop_odom s)) r := by
  refine ⟨rfl, rfl, rfl, ?_, ?_, ?_⟩ <;> simp [tick, start_odom, stop_odom]

/-- Claim C10: after every completed tick the pose heading equals the
degrees-to-radians conversion of the running filtered rotation total as of
that tick, and it is independent of the heading the pose held before the
tick. -/
theorem heading_determined_by_filtered_rotation (geo : Geometry)
    (s : OdomState) (r : Reading) :
    (tick geo s r).global_angle
      = u_deg_to_rad ((tick geo s r).filtered_rotation) ∧
    ∀ a : ℝ, (tick geo { s with global_angle := a } r).global_angle
      = (tick geo s r).global_angle := by
  constructor
  · show s.global_angle + deltaTheta s r = u_deg_to_rad (filteredRotationAfter s r)
    rw [deltaTheta]
    ring
  · intro a
    show a + deltaTheta { s with global_angle := a } r
      = s.global_angle + deltaTheta s r
    rw [deltaTheta, deltaTheta]
    simp [filteredRotationAfter]

/-- Claim C1: in every tick with nonzero heading delta (the filtered rotation
total in radians minus the current heading), the integrator sets
`alpha = dTheta / 2`, each wheel's radius is its delta over `dTheta` plus its
turning-center offset, each chord is `2 * radius * sin(alpha)`, the polar
offset is the old heading plus `alpha`, the pose coordinates gain
`chordRight * sin(polarOffset) + chordMiddle * cos(polarOffset)` in `x` and
`chordRight * cos(polarOffset) + chordMiddle * (-sin(polarOffset))` in `y`,
and the heading gains exactly `dTheta`. -/
theorem arc_branch_integration (geo : Geometry) (s : OdomState) (r : Reading)
    (h : deltaTheta s r ≠ 0) :
    deltaTheta s r = u_deg_to_rad (filteredRotationAfter s r) - s.global_angle ∧
    alpha s r = deltaTheta s r / 2 ∧
    radiusRight geo s r = deltaRight geo s r / deltaTheta s r + geo.side_radius ∧
    radiusMiddle geo s r
      = deltaMiddle geo s r / deltaTheta s r + geo.middle_radius ∧
    chordRight geo s r = 2 * radiusRight geo s r * Real.sin (alpha s r) ∧
    chordMiddle geo s r = 2 * radiusMiddle geo s r * Real.sin (alpha s r) ∧
    polarOffset s r = s.global_angle + alpha s r ∧
    (tick geo s r).global_x = s.global_x
      + chordRight geo s r * Real.sin (polarOffset s r)
      + chordMiddle geo s r * Real.cos (polarOffset s r) ∧
    (tick geo s r).global_y = s.global_y
      + chordRight geo s r * Real.cos (polarOffset s r)
      + chordMiddle geo s r * (-Real.sin (polarOffset s r)) ∧
    (tick geo s r).global_angle = s.global_angle + deltaTheta s r := by
  refine ⟨rfl, ?_, rfl, rfl, ?_, ?_, rfl, rfl, rfl, rfl⟩
  · simp [alpha, h]
  · rw [chordRight, if_neg h]
    ring
  · rw [chordMiddle, if_neg h]
    ring

/-- A state whose heading is π radians while all accumulator locals are zero,
so that an all-zero reading still produces the nonzero heading delta -π. -/
def sPi : OdomState :=
  ⟨0, 0, Real.pi, 0, 0, 0, 0, 0, 0, 0, 0, 0, 0, 0, false⟩

/-- Witness for C1 at a concrete input with nonzero heading delta. -/
theorem arc_branch_integration_witness :
    deltaTheta sPi rZero ≠ 0 ∧
    alpha sPi rZero = deltaTheta sPi rZero / 2 ∧
    (tick geoZero sPi rZero).global_angle
      = sPi.global_angle + deltaTheta sPi rZero := by
  have hv : deltaTheta sPi rZero = -Real.pi := by
    rw [deltaTheta_rZero_of_zero_locals sPi rfl rfl]
    simp [sPi]
  have h : deltaTheta sPi rZero ≠ 0 := by
    rw [hv]
    exact neg_ne_zero.mpr Real.pi_ne_zero
  have H := arc_branch_integration geoZero sPi rZero h
  exact ⟨h, H.2.1, H.2.2.2.2.2.2.2.2.2⟩

/-- Claim C6 counterexample: from the state `sPi` (pose heading π while the
filtered rotation total is zero — the situation right after a calibration to
a nonzero starting heading, or after a task restart reset the accumulator
locals), a tick whose raw readings all equal their stored previous samples
still changes the pose heading, because
`dTheta = deg_to_rad(filtered) - heading = -π ≠ 0`. -/
theorem zero_delta_tick_counterexample :
    rZero.rotation = sPi.last_rotation ∧
    rZero.pitch = sPi.last_pitch ∧
    rZero.roll = sPi.last_roll ∧
    lenRight geoZero rZero = sPi.last_right ∧
    lenMiddle geoZero rZero = sPi.last_middle ∧
    (tick geoZero sPi rZero).global_angle ≠ sPi.global_angle := by
  have hv : deltaTheta sPi rZero = -Real.pi := by
    rw [deltaTheta_rZero_of_zero_locals sPi rfl rfl]
    simp [sPi]
  have ht : (tick geoZero sPi rZero).global_angle = 0 := by
    show sPi.global_angle + deltaTheta sPi rZero = 0
    rw [hv]
    show Real.pi + -Real.pi = 0
    ring
  refine ⟨rfl, rfl, rfl, ?_, ?_, ?_⟩
  · simp [lenRight, geoZero, rZero, sPi]
  · simp [lenMiddle, geoZero, rZero, sPi]
  · rw [ht]
    show (0 : ℝ) ≠ Real.pi
    exact Ne.symm Real.pi_ne_zero

/-- Claim C6 amended: a tick in which every sensor delta is zero leaves the
pose (x, y, heading) unchanged, provided the pose heading is in sync with the
filtered rotation total (`heading = deg_to_rad(filtered)`) — a condition that
holds after every completed tick but can fail right after calibration or a
task restart. -/
theorem zero_delta_tick_preserves_pose (geo : Geometry) (s : OdomState)
    (r : Reading)
    (h1 : r.rotation = s.last_rotation)
    (_h2 : r.pitch = s.last_pitch)
    (_h3 : r.roll = s.last_roll)
    (h4 : lenRight geo r = s.last_right)
    (h5 : lenMiddle geo r = s.last_middle)
    (hsync : s.global_angle = u_deg_to_rad s.filtered_rotation) :
    (tick geo s r).global_x = s.global_x ∧
    (tick geo s r).global_y = s.global_y ∧
    (tick geo s r).global_angle = s.global_angle := by
  have hfr : filteredRotationAfter s r = s.filtered_rotation := by
    rw [filteredRotationAfter, h1, m_filter_values_self, add_zero]
  have hθ : deltaTheta s r = 0 := by
    rw [deltaTheta, hfr, hsync, sub_self]
  have hdr : deltaRight geo s r = 0 := by
    rw [deltaRight, h4, sub_self]
  have hdm : deltaMiddle geo s r = 0 := by
    rw [deltaMiddle, h5, sub_self]
  refine ⟨?_, ?_, ?_⟩
  · show s.global_x + chordRight geo s r * Real.sin (polarOffset s r)
      + chordMiddle geo s r * Real.cos (polarOffset s r) = s.global_x
    simp [chordRight, chordMiddle, hθ, hdr, hdm]
  · show s.global_y + chordRight geo s r * Real.cos (polarOffset s r)
      + chordMiddle geo s r * (-Real.sin (polarOffset s r)) = s.global_y
    simp [chordRight, chordMiddle, hθ, hdr, hdm]
  · show s.global_angle + deltaTheta s r = s.global_angle
    rw [hθ, add_zero]

/-- Witness for the amended C6 at the all-zero state, which is in sync. -/
theorem zero_delta_tick_preserves_pose_witness :
    rZero.rotation = sZero.last_rotation ∧
    rZero.pitch = sZero.last_pitch ∧
    rZero.roll = sZero.last_roll ∧
    lenRight geoZero rZero = sZero.last_right ∧
    lenMiddle geoZero rZero = sZero.last_middle ∧
    sZero.global_angle = u_deg_to_rad sZero.filtered_rotation ∧
    (tick geoZero sZero rZero).global_x = sZero.global_x ∧
    (tick geoZero sZero rZero).global_y = sZero.global_y ∧
    (tick geoZero sZero rZero).global_angle = sZero.global_angle := by
  have h4 : lenRight geoZero rZero = sZero.last_right := by
    simp [lenRight, geoZero, rZero, sZero]
  have h5 : lenMiddle geoZero rZero = sZero.last_middle := by
    simp [lenMiddle, geoZero, rZero, sZero]
  have hsync : sZero.global_angle = u_deg_to_rad sZero.filtered_rotation := by
    simp [sZero, u_deg_to_rad]
  obtain ⟨hx, hy, ha⟩ :=
    zero_delta_tick_preserves_pose geoZero sZero rZero rfl rfl rfl h4 h5 hsync
  exact ⟨rfl, rfl, rfl, h4, h5, hsync, hx, hy, ha⟩

/-- A state whose heading is -1/100000 radians with zero accumulator locals,
so that an all-zero reading produces the tiny nonzero heading delta
1/100000 radians — far inside any epsilon band consistent with the
0.01-degree deadband threshold. -/
def sEps : OdomState :=
  ⟨0, 0, -(1 / 100000), 0, 0, 0, 0, 0, 0, 0, 0, 0, 0, 0, false⟩

/-- Claim C7 counterexample: at a heading delta of 1/100000 radians — nonzero
but smaller than the 0.01-degree deadband threshold expressed in radians —
the code still takes the arc branch: alpha is dTheta/2 rather than 0, and the
right chord differs from the raw right-wheel delta. -/
theorem epsilon_band_counterexample :
    deltaTheta sEps rZero ≠ 0 ∧
    |deltaTheta sEps rZero| < u_deg_to_rad 0.01 ∧
    alpha sEps rZero = deltaTheta sEps rZero / 2 ∧
    chordRight geoSide sEps rZero ≠ deltaRight geoSide sEps rZero := by
  have hθ : deltaTheta sEps rZero = 1 / 100000 := by
    rw [deltaTheta_rZero_of_zero_locals sEps rfl rfl]
    simp [sEps]
  have hne : deltaTheta sEps rZero ≠ 0 := by
    rw [hθ]
    norm_num
  have hα : alpha sEps rZero = 1 / 100000 / 2 := by
    rw [alpha, if_neg hne, hθ]
  have hdr : deltaRight geoSide sEps rZero = 0 := by
    simp [deltaRight, lenRight, geoSide, sEps, rZero]
  have hsin : 0 < Real.sin (1 / 100000 / 2) := by
    apply Real.sin_pos_of_pos_of_lt_pi
    · norm_num
    · nlinarith [Real.pi_gt_three]
  refine ⟨hne, ?_, ?_, ?_⟩
  · rw [hθ, u_deg_to_rad, abs_of_pos (by norm_num)]
    nlinarith [Real.pi_gt_three]
  · rw [alpha, if_neg hne]
  · rw [hdr, chordRight, if_neg hne, radiusRight, hdr, hθ, hα]
    rw [show geoSide.side_radius = (1 : ℝ) from rfl]
    have hred : (0 : ℝ) / (1 / 100000) + 1 = 1 := by norm_num
    rw [hred, one_mul]
    exact (mul_pos hsin two_pos).ne'

/-- Claim C7 amended: the zero-rotation decision is bit-exact, not an epsilon
band: the straight-line branch is taken exactly when the heading delta is
exactly zero, and the arc branch (with its division by dTheta) is entered for
every nonzero heading delta, however small. -/
theorem exact_zero_branch_decision (geo : Geometry) (s : OdomState)
    (r : Reading) :
    (deltaTheta s r = 0 →
      alpha s r = 0 ∧ chordRight geo s r = deltaRight geo s r ∧
      chordMiddle geo s r = deltaMiddle geo s r) ∧
    (deltaTheta s r ≠ 0 →
      alpha s r = deltaTheta s r / 2 ∧
      chordRight geo s r = radiusRight geo s r * Real.sin (alpha s r) * 2 ∧
      chordMiddle geo s r
        = radiusMiddle geo s r * Real.sin (alpha s r) * 2) := by
  constructor
  · intro h
    exact ⟨by simp [alpha, h], by simp [chordRight, h], by simp [chordMiddle, h]⟩
  · intro h
    exact ⟨by rw [alpha, if_neg h], by rw [chordRight, if_neg h],
      by rw [chordMiddle, if_neg h]⟩

/-- Witness for the amended C7: the straight-line branch at the all-zero
state, and the arc branch at the tiny nonzero heading delta of `sEps`. -/
theorem exact_zero_branch_decision_witness :
    deltaTheta sZero rZero = 0 ∧ alpha sZero rZero = 0 ∧
    deltaTheta sEps rZero ≠ 0 ∧
    alpha sEps rZero = deltaTheta sEps rZero / 2 := by
  have h0 : deltaTheta sZero rZero = 0 := by
    rw [deltaTheta_rZero_of_zero_locals sZero rfl rfl]
    simp [sZero]
  have hθ : deltaTheta sEps rZero = 1 / 100000 := by
    rw [deltaTheta_rZero_of_zero_locals sEps rfl rfl]
    simp [sEps]
  have hne : deltaTheta sEps rZero ≠ 0 := by
    rw [hθ]
    norm_num
  exact ⟨h0, ((exact_zero_branch_decision geoZero sZero rZero).1 h0).1, hne,
    ((exact_zero_branch_decision geoZero sEps rZero).2 hne).1⟩

end

end BionicBeaver
